import Mathlib

/-!
Shallow embedding of the gometrics video-quality comparator
(`video/comparator/comparator.go`, the heatmap writer and the metric
handlers under `metrics/`), together with proofs settling the spec claims.

Machine integers of the Go code are modelled as `Int` (Go `int`), byte
buffers as `List Nat` (only their lengths are observable here) and
`float32`/`float64` values as `ℚ` (the claims under study involve no
floating-point rounding).  Go's truncated integer division is `Int.tdiv`.
Fallible Go functions return `Except String` carrying the literal error
strings of the source.
-/

namespace GoMetrics

/-- Model of `video.Source` (`comparator.go` `Source` interface): the record
of its getter outputs.  `getFrame` is indexed by the source's own monotonic
cursor and returns success or a decode error; frame pixel content is not
observable by any claim, so the filled frame is abstracted to `Unit`. -/
structure SourceM where
  numFrames : Int
  planeSizes : Nat × Nat × Nat
  planeStrides : Int × Int × Int
  getFrame : Nat → Except String Unit

/-- Model of `video.Frame` (`comparator.go`): three plane byte buffers and
three line strides.  Bytes are `Nat`s; `vship.PinnedMalloc n` yields a
zero-filled buffer of length `n`. -/
structure FrameM where
  data : List Nat × List Nat × List Nat
  lineSize : Int × Int × Int

/-- The three plane buffer lengths of a frame, for comparison against a
source's advertised `GetPlaneSizes`. -/
def FrameM.planeLens (f : FrameM) : Nat × Nat × Nat :=
  (f.data.1.length, f.data.2.1.length, f.data.2.2.length)

/-- Model of `vship.PinnedMalloc`: a fresh zero buffer of the given size
(the allocation itself always succeeds in the model). -/
def pinnedMalloc (size : Nat) : List Nat := List.replicate size 0

/-- Model of a metric (`video.Metric`): its name and its `Compute` outcome
per frame-pair index.  A score map produced by one `Compute` call is an
association list (the Go `map[string]float64`); values are `ℚ`. -/
structure MetricM where
  name : String
  compute : Nat → Except String (List (String × ℚ))

/-- Go map lookup on an association list. -/
def lookupKey {α : Type} : String → List (String × α) → Option α
  | _, [] => none
  | k, (k', v) :: rest => if k' = k then some v else lookupKey k rest

/-- Go map insert/overwrite on an association list. -/
def assocSet {α : Type} : List (String × α) → String → α → List (String × α)
  | [], k, v => [(k, v)]
  | (k', v') :: rest, k, v =>
    if k' = k then (k, v) :: rest else (k', v') :: assocSet rest k v

/-- The state of a `Comparator` as left by `NewComparator`
(`comparator.go:134-164`): channel capacities, the two pre-filled frame
pools and their capacities, and the validated configuration. -/
structure ComparatorM where
  frameThreads : Int
  numFrames : Int
  chanACap : Int
  chanBCap : Int
  pairChanCap : Int
  scoreChanCap : Int
  poolCapA : Int
  poolCapB : Int
  poolA : List FrameM
  poolB : List FrameM

instance : Inhabited SourceM :=
  ⟨⟨0, (0, 0, 0), (0, 0, 0), fun _ => .ok ()⟩⟩

/-- `validateArguments` (`comparator.go:166-190`).  The two sources are
`Option`s so that Go's nil-pointer check is expressible. -/
def validateArguments (videoA? videoB? : Option SourceM) (metrics : List MetricM)
    (frameThreads numFrames : Int) : Option String :=
  if videoA?.isNone ∨ videoB?.isNone then
    some "either video a or video b was passed as a nil ptr"
  else if metrics.length < 1 then
    some "at least one metric must be passed to measure with"
  else if frameThreads < 1 then
    some "at least 1 frame thread must be used to compare"
  else if (videoA?.getD default).numFrames < numFrames then
    some "videoa has less frames than number of frames to  be compared"
  else if (videoB?.getD default).numFrames < numFrames then
    some "videob has less frames than number of frames to  be compared"
  else
    none

/-- `calculateTotalNumberOfFrameBuffers` (`comparator.go:192-204`): the
number of frames pre-allocated per side, `1 + (frameThreads/2 + 1) +
frameThreads` with Go (truncated) division. -/
def calculateTotalNumberOfFrameBuffers (frameThreads : Int) : Int :=
  1 + (Int.tdiv frameThreads 2 + 1) + frameThreads

/-- One iteration of `allocateFrameBuffer` (`comparator.go:206-246`): the
frame put into pool A.  Sizes and strides come from `videoA.GetPlaneSizes()`. -/
def allocateFrameBufferA (videoA : SourceM) : FrameM :=
  { data := (pinnedMalloc videoA.planeSizes.1, pinnedMalloc videoA.planeSizes.2.1,
      pinnedMalloc videoA.planeSizes.2.2)
    lineSize := videoA.planeStrides }

/-- One iteration of `allocateFrameBuffer` (`comparator.go:206-246`): the
frame put into pool B.  The source reads `sB, lB := c.videoA.GetPlaneSizes()`
(line 226), so sizes and strides come from `videoA`, not `videoB`. -/
def allocateFrameBufferB (videoA : SourceM) : FrameM :=
  { data := (pinnedMalloc videoA.planeSizes.1, pinnedMalloc videoA.planeSizes.2.1,
      pinnedMalloc videoA.planeSizes.2.2)
    lineSize := videoA.planeStrides }

/-- `NewComparator` (`comparator.go:134-164`): validate, size the channels,
pre-allocate `totalBuffers` frames into each pool, create `scoresChan` with
capacity `frameThreads`. -/
def NewComparator (videoA? videoB? : Option SourceM) (metrics : List MetricM)
    (frameThreads numFrames : Int) : Except String ComparatorM :=
  match validateArguments videoA? videoB? metrics frameThreads numFrames with
  | some e => .error e
  | none =>
    let videoA := videoA?.getD default
    let totalBuffers := calculateTotalNumberOfFrameBuffers frameThreads
    .ok
      { frameThreads := frameThreads
        numFrames := numFrames
        chanACap := 1
        chanBCap := 1
        pairChanCap := Int.tdiv frameThreads 2
        scoreChanCap := frameThreads
        poolCapA := totalBuffers
        poolCapB := totalBuffers
        poolA := List.replicate totalBuffers.toNat (allocateFrameBufferA videoA)
        poolB := List.replicate totalBuffers.toNat (allocateFrameBufferB videoA) }

/-- The error `fmt.Errorf("duplicate metric %q from %s", k, metric.Name())`
of `computeFrameMetric` (`comparator.go:454-470`). -/
def duplicateKeyMsg (k name : String) : String :=
  "duplicate metric \"" ++ k ++ "\" from " ++ name

/-- The merge loop of `computeFrameMetric` (`comparator.go:462-468`): each
`(k, v)` of the metric's score map is inserted into the shared result map;
a key already present is the fatal duplicate-key error. -/
def mergeScores (name : String) : List (String × ℚ) → List (String × ℚ) →
    Except String (List (String × ℚ))
  | res, [] => .ok res
  | res, (k, v) :: rest =>
    match lookupKey k res with
    | some _ => .error (duplicateKeyMsg k name)
    | none => mergeScores name (assocSet res k v) rest

/-- `computeFrameMetric` (`comparator.go:454-470`): run one metric's
`Compute` on the pair at `idx` and merge its scores into `res`. -/
def computeFrameMetric (res : List (String × ℚ)) (metric : MetricM)
    (idx : Nat) : Except String (List (String × ℚ)) :=
  match metric.compute idx with
  | .error e => .error (metric.name ++ " computation failed: " ++ e)
  | .ok scores => mergeScores metric.name res scores

/-- The intra-pair fan-out of `computeFrameMetrics` (`comparator.go:418-449`).
In the source every metric's `Compute` runs in its own goroutine and merges
under a mutex; the merge order is serialised here as the metric list order,
which is the order in which the claims speak of a "second" metric. -/
def computeFrameMetrics (metrics : List MetricM) (idx : Nat) :
    Except String (List (String × ℚ)) :=
  go [] metrics
where
  go (res : List (String × ℚ)) : List MetricM → Except String (List (String × ℚ))
    | [] => .ok res
    | m :: rest =>
      match computeFrameMetric res m idx with
      | .error e => .error e
      | .ok res' => go res' rest

/-- `metricResult` (`comparator.go:51-55`): a frame index and the merged
score map for that pair.  The index is a Go `int`, hence `Int`. -/
structure MetricResultM where
  index : Int
  scores : List (String × ℚ)

/-- The work of the metric-worker stage over the pairs in index order
(`metricThread`, `comparator.go:400-414`): each pair yields one
`metricResult`; the first error aborts the run. -/
def workAll (metrics : List MetricM) : List Nat → Except String (List MetricResultM)
  | [] => .ok []
  | i :: rest =>
    match computeFrameMetrics metrics i with
    | .error e => .error e
    | .ok scores =>
      match workAll metrics rest with
      | .error e => .error e
      | .ok others => .ok (⟨(i : Int), scores⟩ :: others)

/-- `readerThread` (`comparator.go:307-332`): pull `remaining` frames from
the source, starting at cursor `i`; the first decode error aborts. -/
def readFrom (source : SourceM) : Nat → Nat → Except String Unit
  | _, 0 => .ok ()
  | i, remaining + 1 =>
    match source.getFrame i with
    | .error e => .error e
    | .ok _ => readFrom source (i + 1) remaining

/-- A full reader pass: `numFrames` reads from cursor 0. -/
def readAll (source : SourceM) (numFrames : Nat) : Except String Unit :=
  readFrom source 0 numFrames

/-- The aggregator's map state, completion counter and the trace of
progress-callback invocations (`aggregateResults`, `comparator.go:478-496`).
`finalScores` maps a score key to its dense per-frame array. -/
structure AggState where
  finalScores : List (String × List ℚ)
  completed : Nat
  progressTrace : List (Nat × Nat)

/-- The write of one `(name, val)` into `finalScores`
(`comparator.go:485-488`): allocate a zero array of length `numFrames` for a
fresh key, then write `val` at `index`. -/
def writeScore (fs : List (String × List ℚ)) (name : String) (idx : Nat)
    (val : ℚ) (numFrames : Nat) : List (String × List ℚ) :=
  let arr := (lookupKey name fs).getD (List.replicate numFrames 0)
  assocSet fs name (arr.set idx val)

/-- The inner loop of `aggregateResults` over one result's scores map
(`comparator.go:481-489`): the index bound is re-checked at every entry,
before the entry is written. -/
def aggScoresLoop (numFrames : Nat) (index : Int) :
    List (String × List ℚ) → List (String × ℚ) →
    Except String (List (String × List ℚ))
  | fs, [] => .ok fs
  | fs, (name, val) :: rest =>
    if index < 0 ∨ (numFrames : Int) ≤ index then
      .error "aggergated index outside of numframe"
    else
      aggScoresLoop numFrames index (writeScore fs name index.toNat val numFrames) rest

/-- One iteration of `aggregateResults` (`comparator.go:480-494`): process
one received `metricResult`, then bump `completed` and invoke the progress
callback with `(completed, numFrames)`.  The index check precedes any write
and does not depend on the loop entry, so on error nothing of this result
has been written and the state is returned unchanged. -/
def aggregateOne (numFrames : Nat) (st : AggState) (res : MetricResultM) :
    AggState × Option String :=
  match aggScoresLoop numFrames res.index st.finalScores res.scores with
  | .error e => (st, some e)
  | .ok fs' =>
    ({ finalScores := fs'
       completed := st.completed + 1
       progressTrace := st.progressTrace ++ [(st.completed + 1, numFrames)] },
     none)

/-- `aggregateResults` (`comparator.go:478-496`) over the whole stream of
received results; the first fatal error stops the loop. -/
def aggregateResults (numFrames : Nat) (st : AggState) :
    List MetricResultM → AggState × Option String
  | [] => (st, none)
  | res :: rest =>
    match aggregateOne numFrames st res with
    | (st', none) => aggregateResults numFrames st' rest
    | (st', some e) => (st', some e)

/-- The initial aggregator state: empty `finalScores`, zero completed. -/
def initAggState : AggState := ⟨[], 0, []⟩

/-- Sequentialisation of `Comparator.Run` (`comparator.go:250-274`): both
readers read `numFrames` frames in index order, the pair assembler pairs
them by index, the workers produce one `metricResult` per pair, and the
aggregator folds the results.  Out-of-order completion only permutes the
arrival order of results, which no claim under study observes, so results
are processed in index order; on an error the model returns the run's error
(the partially aggregated state of a failed concurrent run is not
modelled). -/
def runComparator (videoA videoB : SourceM) (metrics : List MetricM)
    (numFrames : Nat) : AggState × Option String :=
  match readAll videoA numFrames with
  | .error e => (initAggState, some e)
  | .ok _ =>
    match readAll videoB numFrames with
    | .error e => (initAggState, some e)
    | .ok _ =>
      match workAll metrics (List.range numFrames) with
      | .error e => (initAggState, some e)
      | .ok results => aggregateResults numFrames initAggState results

/-!  ## Heatmap writer (`metrics` package, `HeatmapWriter`)  -/

/-- The observable state of a `HeatmapWriter`: the clipping value
(`maxValue`), the two internal buffers and the float values written to the
encoder pipe so far.  The byte serialisation of `writeFloats` is modelled at
the value level: `byteBuf` and the pipe stream hold the float32 values whose
little-endian bytes the source emits. -/
structure HWriterM where
  maxValue : ℚ
  normalized : List ℚ
  byteBuf : List ℚ
  written : List ℚ

/-- `HeatmapWriter.normalize`: clamp each value to at most `maxValue` (the
lower end is not clamped) and multiply by `scale = 1/maxValue`. -/
def HeatmapWriter.normalize (maxValue : ℚ) (input : List ℚ) : List ℚ :=
  input.map (fun v => (if maxValue < v then maxValue else v) * (1 / maxValue))

/-- `HeatmapWriter.WriteDistortion`: an empty input returns immediately;
otherwise the buffers are resized to the input length, normalised, and the
normalised frame is written to the encoder pipe (the pipe write itself
succeeds in the model; its I/O errors are environmental). -/
def HeatmapWriter.writeDistortion (h : HWriterM) (input : List ℚ) :
    HWriterM × Option String :=
  if input.length = 0 then (h, none)
  else
    let norm := HeatmapWriter.normalize h.maxValue input
    ({ h with normalized := norm, byteBuf := norm, written := h.written ++ norm },
     none)

/-- The per-spec normalisation ("clamp each input float to [0, clipping],
then divide by clipping").  Modelled from the spec for comparison with
`HeatmapWriter.normalize`. -/
def specNormalize (clipping : ℚ) (input : List ℚ) : List ℚ :=
  input.map (fun v => max 0 (min v clipping) / clipping)

/-- The close-once state of a `HeatmapWriter`: whether the `sync.Once` has
fired, and counters of pipe closes and encoder waits. -/
structure HWCloseState where
  closeDone : Bool
  pipeCloseCount : Nat
  waitCount : Nat

/-- `HeatmapWriter.Close`: `closeOnce.Do` closes the pipe and waits for the
encoder only on the first call, capturing the encoder's exit error in the
call-local `waitErr`; `waitErr` stays nil on every later call. -/
def HeatmapWriter.close (encoderExitErr : Option String) (st : HWCloseState) :
    HWCloseState × Option String :=
  if st.closeDone then (st, none)
  else
    ({ closeDone := true
       pipeCloseCount := st.pipeCloseCount + 1
       waitCount := st.waitCount + 1 },
     encoderExitErr.map (fun e => "ffmpeg failed: " ++ e))

/-- Repeated calls to `Close` on the same writer, collecting each call's
return value in order. -/
def HeatmapWriter.closeN (encoderExitErr : Option String) :
    Nat → HWCloseState → HWCloseState × List (Option String)
  | 0, st => (st, [])
  | n + 1, st =>
    let (st', r) := HeatmapWriter.close encoderExitErr st
    let (st'', rs) := HeatmapWriter.closeN encoderExitErr n st'
    (st'', r :: rs)

/-- A freshly constructed writer: pipe open, nothing closed or waited. -/
def freshCloseState : HWCloseState := ⟨false, 0, 0⟩

/-!  ## Heatmap-capable metric handlers (`metrics/butteraugli.go`,
`metrics/cvvdp.go`)  -/

/-- The callback-relevant state of a `ButterHandler`: its worker count and
the registered distortion-map callback (callbacks are modelled by an
identifying tag). -/
structure ButterHandlerM where
  numWorkers : Int
  callback : Option Nat

/-- A `ButterHandler` as produced by a successful `NewButterHandler` with
the given worker count: no callback registered. -/
def NewButterHandler (numWorkers : Int) : ButterHandlerM :=
  ⟨numWorkers, none⟩

/-- `ButterHandler.SetDistMapCallback` (`metrics/butteraugli.go:164-171`). -/
def ButterHandler.setDistMapCallback (h : ButterHandlerM) (cb : Nat) :
    ButterHandlerM × Option String :=
  if 1 < h.numWorkers then
    (h, some "cannot request more than 1 worker when returning a distortion map")
  else
    ({ h with callback := some cb }, none)

/-- The callback-relevant state of a `CVVDPHandler` (`metrics/cvvdp.go`). -/
structure CVVDPHandlerM where
  numWorkers : Int
  callback : Option Nat

/-- A `CVVDPHandler` as produced by a successful `NewCVVDPHandler` with the
given worker count: no callback registered. -/
def NewCVVDPHandler (numWorkers : Int) : CVVDPHandlerM :=
  ⟨numWorkers, none⟩

/-- `CVVDPHandler.SetDistMapCallback` (`metrics/cvvdp.go:208-215`). -/
def CVVDPHandler.setDistMapCallback (h : CVVDPHandlerM) (cb : Nat) :
    CVVDPHandlerM × Option String :=
  if 1 < h.numWorkers then
    (h, some "cannot request more than 1 worker when returning a distortion map")
  else
    ({ h with callback := some cb }, none)

/-!  ## Concrete fixtures  -/

/-- A small test source: 4 frames, plane sizes (4, 2, 2), reads always
succeed. -/
def vidSmall : SourceM := ⟨4, (4, 2, 2), (4, 2, 2), fun _ => .ok ()⟩

/-- A larger test source: 4 frames, plane sizes (8, 4, 4), reads always
succeed. -/
def vidBig : SourceM := ⟨4, (8, 4, 4), (8, 4, 4), fun _ => .ok ()⟩

/-- A metric producing the single key "x". -/
def metricX : MetricM := ⟨"X", fun _ => .ok [("x", 1)]⟩

/-- A metric named "Y" that also produces the key "x", clashing with
`metricX`. -/
def metricXdup : MetricM := ⟨"Y", fun _ => .ok [("x", 2)]⟩

/-!  ## Helper lemmas  -/

theorem lookupKey_eq_none_iff {α : Type} (k : String) (l : List (String × α)) :
    lookupKey k l = none ↔ k ∉ l.map Prod.fst := by
  induction l with
  | nil => simp [lookupKey]
  | cons p rest ih =>
    obtain ⟨k', v⟩ := p
    by_cases h : k' = k
    · subst h
      simp [lookupKey]
    · simp only [lookupKey, if_neg h, ih, List.map_cons, List.mem_cons]
      constructor
      · intro hn hc
        rcases hc with hc | hc
        · exact h hc.symm
        · exact hn hc
      · intro hn hc
        exact hn (Or.inr hc)

theorem lookupKey_isSome_iff {α : Type} (k : String) (l : List (String × α)) :
    (lookupKey k l).isSome = true ↔ k ∈ l.map Prod.fst := by
  rw [Option.isSome_iff_ne_none, ne_eq, lookupKey_eq_none_iff, not_not]

theorem assocSet_of_not_mem {α : Type} (l : List (String × α)) (k : String)
    (v : α) (h : k ∉ l.map Prod.fst) : assocSet l k v = l ++ [(k, v)] := by
  induction l with
  | nil => simp [assocSet]
  | cons p rest ih =>
    obtain ⟨k', v'⟩ := p
    simp only [List.map_cons, List.mem_cons] at h
    push_neg at h
    simp [assocSet, Ne.symm h.1, ih h.2]

theorem mergeScores_ok (name : String) :
    ∀ (s res : List (String × ℚ)),
      (s.map Prod.fst).Nodup →
      (∀ x ∈ s.map Prod.fst, x ∉ res.map Prod.fst) →
      mergeScores name res s = .ok (res ++ s) := by
  intro s
  induction s with
  | nil =>
    intro res _ _
    simp [mergeScores]
  | cons p rest ih =>
    intro res hnd hdisj
    obtain ⟨k0, v0⟩ := p
    simp only [List.map_cons, List.nodup_cons] at hnd
    have hk0 : k0 ∉ res.map Prod.fst := hdisj k0 (by simp)
    have hnone : lookupKey k0 res = none := (lookupKey_eq_none_iff k0 res).mpr hk0
    have hdisj' : ∀ x ∈ rest.map Prod.fst, x ∉ (res ++ [(k0, v0)]).map Prod.fst := by
      intro x hx
      rw [List.map_append, List.mem_append]
      push_neg
      refine ⟨hdisj x (by simp [hx]), ?_⟩
      simp only [List.map_cons, List.map_nil, List.mem_singleton]
      intro hxk
      exact hnd.1 (hxk ▸ hx)
    calc mergeScores name res ((k0, v0) :: rest)
        = mergeScores name (assocSet res k0 v0) rest := by
          simp only [mergeScores, hnone]
      _ = mergeScores name (res ++ [(k0, v0)]) rest := by
          rw [assocSet_of_not_mem res k0 v0 hk0]
      _ = .ok ((res ++ [(k0, v0)]) ++ rest) := ih (res ++ [(k0, v0)]) hnd.2 hdisj'
      _ = .ok (res ++ (k0, v0) :: rest) := by simp

/-!  ## Claim C1  -/

/-- C1: the claim says every Frame pre-allocated into side B's pool is
sized from `videoB.GetPlaneSizes()`.  At the accepted construction below,
`videoB` advertises plane sizes (8, 4, 4), yet every frame of pool B has
plane buffer lengths (4, 2, 2) — side A's sizes — because
`allocateFrameBuffer` reads `sB, lB := c.videoA.GetPlaneSizes()`
(`comparator.go:226`). -/
theorem poolB_sized_from_videoA_planes :
    (NewComparator (some vidSmall) (some vidBig) [metricX] 1 1).map
        (fun c => c.poolB.map FrameM.planeLens) =
      .ok (List.replicate 3 (4, 2, 2)) ∧
    vidBig.planeSizes = (8, 4, 4) ∧ (4, 2, 2) ≠ vidBig.planeSizes := by
  refine ⟨rfl, rfl, by decide⟩

/-!  ## Claim C2  -/

/-- C2 counterexample: with `frameThreads = 1` the accepted construction
leaves `chanPair` with capacity `1/2 = 0` (an unbuffered channel), not
`max(1, 1/2) = 1` as the claim states. -/
theorem pairChanCap_zero_at_one_thread :
    (NewComparator (some vidSmall) (some vidBig) [metricX] 1 1).map
        (fun c => c.pairChanCap) = .ok 0 ∧
    (0 : Int) ≠ max 1 (Int.tdiv 1 2) := by
  refine ⟨rfl, by decide⟩

/-- C2 (amended): every accepted construction has `chanA`/`chanB` capacity
1, `chanPair` capacity `T/2` (Go truncated division — 0, an unbuffered
channel, when `T = 1`), `chanScore` capacity `T`, and pre-allocates into
each per-side pool exactly `1 + (T/2 + 1) + T` frames, equal to that pool's
capacity. -/
theorem newComparator_channel_and_pool_sizing (vA vB : SourceM)
    (metrics : List MetricM) (T n : Int) (c : ComparatorM)
    (h : NewComparator (some vA) (some vB) metrics T n = .ok c) :
    c.chanACap = 1 ∧ c.chanBCap = 1 ∧ c.pairChanCap = Int.tdiv T 2 ∧
    c.scoreChanCap = T ∧
    c.poolCapA = 1 + (Int.tdiv T 2 + 1) + T ∧
    c.poolCapB = 1 + (Int.tdiv T 2 + 1) + T ∧
    c.poolA.length = (1 + (Int.tdiv T 2 + 1) + T).toNat ∧
    c.poolB.length = (1 + (Int.tdiv T 2 + 1) + T).toNat := by
  unfold NewComparator at h
  cases hv : validateArguments (some vA) (some vB) metrics T n with
  | some e => rw [hv] at h; exact absurd h (by simp)
  | none =>
    rw [hv] at h
    simp only [Except.ok.injEq] at h
    subst h
    simp [calculateTotalNumberOfFrameBuffers]

/-- The comparator value produced by `NewComparator` on the fixtures with
`frameThreads = 2`, `numFrames = 1`. -/
def comparatorT2 : ComparatorM :=
  { frameThreads := 2
    numFrames := 1
    chanACap := 1
    chanBCap := 1
    pairChanCap := Int.tdiv 2 2
    scoreChanCap := 2
    poolCapA := calculateTotalNumberOfFrameBuffers 2
    poolCapB := calculateTotalNumberOfFrameBuffers 2
    poolA := List.replicate (calculateTotalNumberOfFrameBuffers 2).toNat
      (allocateFrameBufferA vidSmall)
    poolB := List.replicate (calculateTotalNumberOfFrameBuffers 2).toNat
      (allocateFrameBufferB vidSmall) }

/-- C2 witness: the sizing theorem applied at a concrete accepted
construction with `frameThreads = 2`. -/
theorem newComparator_channel_and_pool_sizing_witness :
    comparatorT2.pairChanCap = Int.tdiv 2 2 ∧
    comparatorT2.poolA.length = (1 + (Int.tdiv 2 2 + 1) + 2).toNat :=
  ⟨(newComparator_channel_and_pool_sizing vidSmall vidBig [metricX] 2 1
      comparatorT2 rfl).2.2.1,
   (newComparator_channel_and_pool_sizing vidSmall vidBig [metricX] 2 1
      comparatorT2 rfl).2.2.2.2.2.2.1⟩

/-!  ## Claim C3  -/

/-- C3 counterexample: `numFrames = 0` with all other arguments valid is
accepted by `NewComparator` — there is no lower-bound check on `numFrames`
in `validateArguments` (`comparator.go:166-190`). -/
theorem newComparator_accepts_zero_numFrames :
    (NewComparator (some vidSmall) (some vidBig) [metricX] 1 0).isOk = true ∧
    ¬(1 ≤ (0 : Int)) := by
  refine ⟨rfl, by decide⟩

theorem newComparator_isOk_iff_validate (videoA? videoB? : Option SourceM)
    (metrics : List MetricM) (T n : Int) :
    (NewComparator videoA? videoB? metrics T n).isOk = true ↔
      validateArguments videoA? videoB? metrics T n = none := by
  unfold NewComparator
  cases h : validateArguments videoA? videoB? metrics T n <;>
    simp [h, Except.isOk, Except.toBool]

/-- C3 (amended): `NewComparator` succeeds exactly when the metric list is
non-empty, `frameThreads ≥ 1` and `numFrames` does not exceed either
source's frame count; no lower bound on `numFrames` is enforced, so zero
or negative `numFrames` values are accepted when the other arguments are
valid. -/
theorem newComparator_ok_iff (vA vB : SourceM) (metrics : List MetricM)
    (T n : Int) :
    (NewComparator (some vA) (some vB) metrics T n).isOk = true ↔
      (1 ≤ metrics.length ∧ 1 ≤ T ∧ n ≤ vA.numFrames ∧ n ≤ vB.numFrames) := by
  rw [newComparator_isOk_iff_validate]
  unfold validateArguments
  have h1 : ¬((some vA).isNone = true ∨ (some vB).isNone = true) := by simp
  rw [if_neg h1]
  simp only [Option.getD_some]
  constructor
  · intro h
    split_ifs at h with h2 h3 h4 h5 <;>
      first
        | exact absurd h (Option.some_ne_none _)
        | exact ⟨by omega, by omega, by omega, by omega⟩
  · rintro ⟨hm, ht, ha, hb⟩
    split_ifs with h2 h3 h4 h5 <;>
      first
        | rfl
        | (exfalso; omega)

/-- C3 witness: the acceptance characterisation applied at `numFrames = -3`
with otherwise-valid arguments; the constructor accepts. -/
theorem newComparator_ok_iff_witness :
    (NewComparator (some vidSmall) (some vidBig) [metricX] 1 (-3)).isOk = true :=
  (newComparator_ok_iff vidSmall vidBig [metricX] 1 (-3)).mpr
    ⟨by decide, by decide, by decide, by decide⟩

/-!  ## Claim C5  -/

theorem workAll_cons_error (metrics : List MetricM) (i : Nat) (rest : List Nat)
    (e : String) (h : computeFrameMetrics metrics i = .error e) :
    workAll metrics (i :: rest) = .error e := by
  simp [workAll, h]

theorem computeFrameMetrics_pair_dup (m1 m2 : MetricM) (idx : Nat)
    (s1 : List (String × ℚ)) (k : String) (v : ℚ)
    (h1 : m1.compute idx = .ok s1) (hnd : (s1.map Prod.fst).Nodup)
    (h2 : m2.compute idx = .ok [(k, v)]) (hk : k ∈ s1.map Prod.fst) :
    computeFrameMetrics [m1, m2] idx = .error (duplicateKeyMsg k m2.name) := by
  obtain ⟨w, hw⟩ := Option.isSome_iff_exists.mp ((lookupKey_isSome_iff k s1).mpr hk)
  have hm1 : computeFrameMetric [] m1 idx = .ok s1 := by
    rw [computeFrameMetric, h1]
    show mergeScores m1.name [] s1 = Except.ok s1
    rw [mergeScores_ok m1.name s1 [] hnd (by simp)]
    simp
  have hm2 : computeFrameMetric s1 m2 idx = .error (duplicateKeyMsg k m2.name) := by
    rw [computeFrameMetric, h2]
    show mergeScores m2.name s1 [(k, v)] = _
    simp only [mergeScores, hw]
  unfold computeFrameMetrics
  simp only [computeFrameMetrics.go, hm1, hm2]

/-- C5: when two distinct metrics produce the same score key for one frame
pair — here the first pair, with the first metric's own keys duplicate-free
— the intra-pair merge fails with the duplicate-key error naming that key
and the metric that merged second, and the run returns that error. -/
theorem duplicate_key_aborts_run (vA vB : SourceM) (m1 m2 : MetricM)
    (n : Nat) (s1 : List (String × ℚ)) (k : String) (v : ℚ)
    (hA : readAll vA n = .ok ()) (hB : readAll vB n = .ok ())
    (hn : 1 ≤ n)
    (h1 : m1.compute 0 = .ok s1) (hnd : (s1.map Prod.fst).Nodup)
    (h2 : m2.compute 0 = .ok [(k, v)]) (hk : k ∈ s1.map Prod.fst) :
    (runComparator vA vB [m1, m2] n).2 = some (duplicateKeyMsg k m2.name) := by
  obtain ⟨m, rfl⟩ : ∃ m, n = m + 1 := ⟨n - 1, by omega⟩
  have hdup := computeFrameMetrics_pair_dup m1 m2 0 s1 k v h1 hnd h2 hk
  have hwork : workAll [m1, m2] (List.range (m + 1)) =
      .error (duplicateKeyMsg k m2.name) := by
    rw [List.range_succ_eq_map]
    exact workAll_cons_error [m1, m2] 0 ((List.range m).map Nat.succ) _ hdup
  unfold runComparator
  rw [hA, hB, hwork]

/-- C5 witness: the duplicate-key theorem at concrete sources and metrics
(`metricX` produces key "x"; `metricXdup`, named "Y", produces "x" too). -/
theorem duplicate_key_aborts_run_witness :
    (runComparator vidSmall vidBig [metricX, metricXdup] 1).2 =
      some (duplicateKeyMsg "x" "Y") :=
  duplicate_key_aborts_run vidSmall vidBig metricX metricXdup 1 [("x", 1)] "x" 2
    rfl rfl (by decide) rfl (by simp) rfl (by simp)

/-!  ## Claim C6  -/

theorem workAll_length (metrics : List MetricM) :
    ∀ (idxs : List Nat) (results : List MetricResultM),
      workAll metrics idxs = .ok results → results.length = idxs.length := by
  intro idxs
  induction idxs with
  | nil =>
    intro results h
    simp only [workAll, Except.ok.injEq] at h
    simp [← h]
  | cons i rest ih =>
    intro results h
    rw [workAll] at h
    cases hc : computeFrameMetrics metrics i with
    | error e => rw [hc] at h; exact absurd h (by simp)
    | ok scores =>
      rw [hc] at h
      cases hr : workAll metrics rest with
      | error e => rw [hr] at h; exact absurd h (by simp)
      | ok others =>
        rw [hr] at h
        simp only [Except.ok.injEq] at h
        simp [← h, ih others hr]

theorem aggregateOne_ok (n : Nat) (st : AggState) (res : MetricResultM)
    (st' : AggState) (h : aggregateOne n st res = (st', none)) :
    st'.completed = st.completed + 1 ∧
    st'.progressTrace = st.progressTrace ++ [(st.completed + 1, n)] := by
  unfold aggregateOne at h
  cases hl : aggScoresLoop n res.index st.finalScores res.scores with
  | error e => rw [hl] at h; exact absurd h (by simp)
  | ok fs =>
    rw [hl] at h
    simp only [Prod.mk.injEq] at h
    rw [← h.1]
    exact ⟨rfl, rfl⟩

theorem aggregateResults_ok_trace (n : Nat) :
    ∀ (results : List MetricResultM) (st st' : AggState),
      aggregateResults n st results = (st', none) →
      st'.completed = st.completed + results.length ∧
      st'.progressTrace = st.progressTrace ++
        (List.range results.length).map (fun i => (st.completed + i + 1, n)) := by
  intro results
  induction results with
  | nil =>
    intro st st' h
    simp only [aggregateResults, Prod.mk.injEq] at h
    simp [← h.1]
  | cons res rest ih =>
    intro st st' h
    rw [aggregateResults] at h
    cases ha : aggregateOne n st res with
    | mk st1 e? =>
      cases e? with
      | some e => rw [ha] at h; exact absurd h (by simp)
      | none =>
        rw [ha] at h
        obtain ⟨hc, ht⟩ := aggregateOne_ok n st res st1 ha
        obtain ⟨ihc, iht⟩ := ih st1 st' h
        constructor
        · rw [ihc, hc, List.length_cons]
          omega
        · rw [iht, ht, hc, List.length_cons, List.range_succ_eq_map,
            List.map_cons, List.map_map, List.append_assoc,
            List.singleton_append]
          congr 1
          congr 1
          apply List.map_congr_left
          intro i _
          simp only [Function.comp_apply, Prod.mk.injEq]
          exact ⟨by omega, trivial⟩

/-- C6: on every successful run the progress callback is invoked exactly
`numFrames` times, with `done` taking the values `1 .. numFrames` in order
(one increment per call) and `total = numFrames` on every call. -/
theorem progress_trace_on_success (vA vB : SourceM) (metrics : List MetricM)
    (n : Nat) (st : AggState) (h : runComparator vA vB metrics n = (st, none)) :
    st.progressTrace = (List.range n).map (fun i => (i + 1, n)) := by
  unfold runComparator at h
  cases hA : readAll vA n with
  | error e => rw [hA] at h; exact absurd h (by simp)
  | ok u =>
    cases u
    rw [hA] at h
    cases hB : readAll vB n with
    | error e => rw [hB] at h; exact absurd h (by simp)
    | ok u =>
      cases u
      rw [hB] at h
      cases hw : workAll metrics (List.range n) with
      | error e => rw [hw] at h; exact absurd h (by simp)
      | ok results =>
        rw [hw] at h
        have hlen : results.length = n := by
          rw [workAll_length metrics (List.range n) results hw,
            List.length_range]
        obtain ⟨_, ht⟩ := aggregateResults_ok_trace n results initAggState st h
        rw [ht, hlen]
        simp [initAggState]

/-- C6 witness: a successful two-frame run on the fixtures; the progress
trace is `[(1, 2), (2, 2)]`. -/
theorem progress_trace_on_success_witness :
    ((runComparator vidSmall vidBig [metricX] 2).1).progressTrace =
      [(1, 2), (2, 2)] :=
  (progress_trace_on_success vidSmall vidBig [metricX] 2
      (runComparator vidSmall vidBig [metricX] 2).1 rfl).trans (by decide)

/-!  ## Claim C7  -/

/-- C7 counterexample: a `metricResult` with an empty scores map and index
99 — far outside `[0, 3)` — passes the aggregator without error, because
the index check sits inside the per-score loop (`comparator.go:481-483`);
the result is even counted as completed and the progress callback fires. -/
theorem aggregator_accepts_empty_scores_bad_index :
    aggregateResults 3 initAggState [⟨99, []⟩] =
      ({ finalScores := [], completed := 1, progressTrace := [(1, 3)] }, none) := rfl

/-- C7 (amended): a received `metricResult` with a non-empty scores map and
an index outside `[0, numFrames)` makes the aggregator return the fatal
index error with nothing of that result written; a result with an empty
scores map bypasses the validation entirely. -/
theorem aggregator_rejects_bad_index_nonempty (n : Nat) (st : AggState)
    (res : MetricResultM) (hne : res.scores ≠ [])
    (hbad : res.index < 0 ∨ (n : Int) ≤ res.index) :
    aggregateOne n st res = (st, some "aggergated index outside of numframe") := by
  obtain ⟨p, rest, hs⟩ := List.exists_cons_of_ne_nil hne
  obtain ⟨name, val⟩ := p
  unfold aggregateOne
  rw [hs, aggScoresLoop, if_pos hbad]

/-- C7 witness: the amended theorem at a concrete out-of-range result with
one score entry. -/
theorem aggregator_rejects_bad_index_nonempty_witness :
    aggregateOne 3 initAggState ⟨99, [("s", 1)]⟩ =
      (initAggState, some "aggergated index outside of numframe") :=
  aggregator_rejects_bad_index_nonempty 3 initAggState ⟨99, [("s", 1)]⟩
    (List.cons_ne_nil _ _) (Or.inr (by decide))

/-!  ## Claim C4  -/

/-- C4: the claim says every value written to the encoder pipe is
`clamp(v, 0, clipping) / clipping`, so negative inputs map to 0 and every
written value lies in [0, 1].  With `clipping = 4` and input `[-2]`, the
code writes `-1/2` — `normalize` clamps only the upper end
(`if v > h.maxValue`), so negative inputs pass through scaled and the
written value is negative, while the spec-mandated clamp yields 0. -/
theorem writeDistortion_negative_value_unclamped :
    (HeatmapWriter.writeDistortion ⟨4, [], [], []⟩ [-2]).1.written = [-(1/2 : ℚ)] ∧
    specNormalize 4 [-2] = [0] ∧ ¬((0 : ℚ) ≤ -(1/2 : ℚ)) := by
  refine ⟨?_, ?_, by norm_num⟩
  · show [] ++ HeatmapWriter.normalize 4 [-2] = [-(1/2 : ℚ)]
    norm_num [HeatmapWriter.normalize]
  · norm_num [specNormalize]

/-!  ## Claim C8  -/

/-- C8: on a handler constructed with more than one worker,
`SetDistMapCallback` returns the worker-count error and leaves the handler
unchanged (no callback registered); on a handler constructed with one
worker it registers the callback and returns nil — for both the
Butteraugli and the CVVDP handler. -/
theorem setDistMapCallback_worker_guard (w : Int) (cb : Nat) :
    (1 < w →
      ButterHandler.setDistMapCallback (NewButterHandler w) cb =
        (NewButterHandler w,
         some "cannot request more than 1 worker when returning a distortion map") ∧
      CVVDPHandler.setDistMapCallback (NewCVVDPHandler w) cb =
        (NewCVVDPHandler w,
         some "cannot request more than 1 worker when returning a distortion map")) ∧
    (w = 1 →
      ButterHandler.setDistMapCallback (NewButterHandler w) cb = (⟨w, some cb⟩, none) ∧
      CVVDPHandler.setDistMapCallback (NewCVVDPHandler w) cb = (⟨w, some cb⟩, none)) := by
  constructor
  · intro hw
    constructor
    · simp [ButterHandler.setDistMapCallback, NewButterHandler, hw]
    · simp [CVVDPHandler.setDistMapCallback, NewCVVDPHandler, hw]
  · intro hw
    subst hw
    constructor
    · simp [ButterHandler.setDistMapCallback, NewButterHandler]
    · simp [CVVDPHandler.setDistMapCallback, NewCVVDPHandler]

/-- C8 witness: the guard theorem at two workers (refusal, Butteraugli) and
at one worker (registration, CVVDP). -/
theorem setDistMapCallback_worker_guard_witness :
    ButterHandler.setDistMapCallback (NewButterHandler 2) 7 =
      (NewButterHandler 2,
       some "cannot request more than 1 worker when returning a distortion map") ∧
    CVVDPHandler.setDistMapCallback (NewCVVDPHandler 1) 7 = (⟨1, some 7⟩, none) :=
  ⟨((setDistMapCallback_worker_guard 2 7).1 (by decide)).1,
   ((setDistMapCallback_worker_guard 1 7).2 rfl).2⟩

/-!  ## Claim C9  -/

theorem closeN_closed (err : Option String) :
    ∀ (m : Nat) (st : HWCloseState), st.closeDone = true →
      HeatmapWriter.closeN err m st = (st, List.replicate m none) := by
  intro m
  induction m with
  | zero =>
    intro st h
    simp [HeatmapWriter.closeN]
  | succ m ih =>
    intro st h
    simp [HeatmapWriter.closeN, HeatmapWriter.close, h, ih st h,
      List.replicate_succ]

/-- C9: across any sequence of `n ≥ 1` calls to `Close` on a fresh writer,
the pipe is closed and the encoder waited for exactly once, only the first
call returns the encoder's (formatted) exit error, and every subsequent
call returns nil even when the first call reported a failure. -/
theorem close_waits_once (err : Option String) (n : Nat) (hn : 1 ≤ n) :
    HeatmapWriter.closeN err n freshCloseState =
      (⟨true, 1, 1⟩,
       (err.map (fun e => "ffmpeg failed: " ++ e)) :: List.replicate (n - 1) none) := by
  obtain ⟨m, rfl⟩ : ∃ m, n = m + 1 := ⟨n - 1, by omega⟩
  simp [HeatmapWriter.closeN, HeatmapWriter.close, freshCloseState,
    closeN_closed err m ⟨true, 1, 1⟩ rfl]

/-- C9 witness: three calls with a failing encoder exit; only the first
call reports "ffmpeg failed: exit status 1". -/
theorem close_waits_once_witness :
    HeatmapWriter.closeN (some "exit status 1") 3 freshCloseState =
      (⟨true, 1, 1⟩,
       some "ffmpeg failed: exit status 1" :: List.replicate 2 none) :=
  close_waits_once (some "exit status 1") 3 (by omega)

/-!  ## Claim C10  -/

/-- C10: `WriteDistortion` on an empty input buffer returns nil
immediately: nothing is written to the encoder pipe and the writer's
normalised and byte buffers are untouched. -/
theorem writeDistortion_empty_noop (h : HWriterM) :
    HeatmapWriter.writeDistortion h [] = (h, none) := rfl

/-- C10 witness: the empty-input theorem at a concrete writer state. -/
theorem writeDistortion_empty_noop_witness :
    HeatmapWriter.writeDistortion ⟨4, [], [], [3]⟩ [] = (⟨4, [], [], [3]⟩, none) :=
  writeDistortion_empty_noop ⟨4, [], [], [3]⟩

end GoMetrics
